import Mathlib

/-!
Verification of the `berga` CLI's script-runner and template-applier logic,
shallowly embedded from `cmd/root.go` and `cmd/template.go`.

Filesystem state is modelled as association lists from file names to file
contents; child-process commands are modelled as a program name plus an
argument list; the race between process completion and the timeout timer is
modelled by the identity of whichever event fires first.
-/

namespace Berga

/-- Host platform, mirroring Go's `runtime.GOOS` as consulted by
`runScript` and `isExecutable` (only the two-way windows/non-windows
distinction matters to the code). -/
inductive OS where
  | windows
  | posix
deriving Repr, DecidableEq

/-- A file in the scripts directory: its lines of text and its POSIX
permission bits (`os.FileInfo.Mode()`); only the `0o111` execute bits are
ever consulted. -/
structure MFile where
  lines : List String
  mode : Nat
deriving Repr, DecidableEq

/-- A child-process invocation, mirroring `exec.Command(prog, args...)`. -/
structure Command where
  prog : String
  args : List String
deriving Repr, DecidableEq

/-- Association-list filesystem for one directory: file name to file. -/
abbrev FS := List (String × MFile)

/-- Look a file up by name, mirroring `os.Stat` on `dir/name`. -/
def lookupFile (fs : FS) (name : String) : Option MFile :=
  match fs with
  | [] => none
  | (n, f) :: rest => if n = name then some f else lookupFile rest name

/-- Go's `strings.HasPrefix`, over the underlying character lists. -/
def goHasPrefix (s pre : String) : Bool :=
  pre.data.isPrefixOf s.data

/-- Go's `strings.HasSuffix`, over the underlying character lists. -/
def goHasSuffix (s suf : String) : Bool :=
  suf.data.isSuffixOf s.data

/-- Go's `strings.ToLower` (restricted to the ASCII case mapping the
claims exercise), over the underlying character lists. -/
def goToLower (s : String) : String :=
  String.mk (s.data.map Char.toLower)

/-- Go's `strings.TrimSpace`: remove leading and trailing whitespace. -/
def goTrimSpace (s : String) : String :=
  String.mk (((s.data.dropWhile Char.isWhitespace).reverse.dropWhile
    Char.isWhitespace).reverse)

/-- Drop the first `n` characters of a string (Go's `line[n:]` slicing,
on character lists). -/
def goDrop (s : String) (n : Nat) : String :=
  String.mk (s.data.drop n)

/-- Splits a character list around runs of whitespace, accumulating the
current field in reverse. -/
def goFieldsAux : List Char → List Char → List String
  | [], acc => if acc.isEmpty then [] else [String.mk acc.reverse]
  | c :: rest, acc =>
    if c.isWhitespace then
      if acc.isEmpty then goFieldsAux rest []
      else String.mk acc.reverse :: goFieldsAux rest []
    else goFieldsAux rest (c :: acc)

/-- Go's `strings.Fields`: split around runs of whitespace, dropping
empty fields. -/
def goFields (s : String) : List String :=
  goFieldsAux s.data []

/-- Embeds `getInterpreter` (`cmd/root.go`): read the first line of the
script; if it starts with `#!`, trim the remainder and return its first
whitespace-delimited token; otherwise (no line, or no shebang, or an empty
shebang) return the empty string. -/
def getInterpreter (file : MFile) : String :=
  match file.lines with
  | [] => ""
  | line :: _ =>
    if goHasPrefix line "#!" then
      match goFields (goTrimSpace (goDrop line 2)) with
      | [] => ""
      | t :: _ => t
    else ""

/-- Go's `filepath.Ext`: the suffix of the final path element starting at
its final dot, or empty when the final element has no dot. -/
def goExt (path : String) : String :=
  let baseRev := path.data.reverse.takeWhile (fun c => c ≠ '/')
  let extRev := baseRev.takeWhile (fun c => c ≠ '.')
  if extRev.length = baseRev.length then ""
  else String.mk ('.' :: extRev.reverse)

/-- Embeds `isExecutable` (`cmd/root.go`): on Windows, check for a known
executable extension; on POSIX, test the `0o111` execute-permission bits of
the file's mode. -/
def isExecutable (os : OS) (path : String) (file : MFile) : Bool :=
  match os with
  | .windows =>
    let ext := goToLower (goExt path)
    ext == ".exe" || ext == ".bat" || ext == ".cmd" || ext == ".ps1"
  | .posix => file.mode &&& 0o111 != 0

/-- Embeds the platform-dispatch portion of `runScript` (`cmd/root.go`):
choose the `exec.Cmd` for a script that exists.
Windows: `.ps1` via `powershell -File`, `.bat`/`.cmd` via `cmd /C`
(extension matched on the lower-cased name), else direct execution.
POSIX: direct execution when the execute bit is set; else the shebang
interpreter when one is extracted; else `sh`. -/
def resolveCommand (os : OS) (scriptName scriptPath : String) (file : MFile)
    (args : List String) : Command :=
  match os with
  | .windows =>
    if goHasSuffix (goToLower scriptName) ".ps1" then
      ⟨"powershell", "-File" :: scriptPath :: args⟩
    else if goHasSuffix (goToLower scriptName) ".bat" ∨
        goHasSuffix (goToLower scriptName) ".cmd" then
      ⟨"cmd", "/C" :: scriptPath :: args⟩
    else
      ⟨scriptPath, args⟩
  | .posix =>
    if isExecutable .posix scriptPath file then
      ⟨scriptPath, args⟩
    else
      let interpreter := getInterpreter file
      if interpreter ≠ "" then
        ⟨interpreter, scriptPath :: args⟩
      else
        ⟨"sh", scriptPath :: args⟩

/-- The `--timeout` flag's value in seconds: the explicitly supplied value
when the flag was given, else cobra's registered default of 300
(`scriptRunCmd.Flags().IntVar(&scriptTimeout, "timeout", 300, ...)`). -/
def scriptTimeoutValue (flag : Option Int) : Int :=
  flag.getD 300

/-- Embeds the timeout computation of `runScript` (`cmd/root.go`): start
from the flag's value, then overwrite it with `viper.GetInt("scripts.timeout")`
whenever that configuration value is strictly positive (`viper.GetInt`
yields 0 for an absent key). -/
def effectiveTimeout (flag : Option Int) (configTimeout : Int) : Int :=
  let timeout := scriptTimeoutValue flag
  if configTimeout > 0 then configTimeout else timeout

/-- The environment `runScript` consults: platform, scripts directory,
its files, the `scripts.timeout` configuration value, and the `--timeout`
flag (`none` when not supplied on the command line). -/
structure RunEnv where
  goos : OS
  scriptsDir : String
  fs : FS
  configScriptsTimeout : Int
  flagTimeout : Option Int
deriving Repr, DecidableEq

/-- What `runScript` does up to (and excluding) process supervision:
either fail before spawning anything, or spawn one command with one
timeout budget. -/
inductive RunPlan where
  | notFound
  | spawn (cmd : Command) (timeoutSeconds : Int)
deriving Repr, DecidableEq

/-- The timeout budget of a plan, when it spawns. -/
def RunPlan.timeoutOf : RunPlan → Option Int
  | .notFound => none
  | .spawn _ t => some t

/-- Embeds `runScript` (`cmd/root.go`) up to the spawn: `os.Stat` the
joined path and fail with the not-found error when absent; otherwise
compute the effective timeout and resolve the command. -/
def runScriptPlan (env : RunEnv) (scriptName : String) (args : List String) : RunPlan :=
  let scriptPath := env.scriptsDir ++ "/" ++ scriptName
  match lookupFile env.fs scriptName with
  | none => .notFound
  | some file =>
    let timeout := effectiveTimeout env.flagTimeout env.configScriptsTimeout
    .spawn (resolveCommand env.goos scriptName scriptPath file args) timeout

/-- Which of the two raced events fires first inside `runScript`'s
`select`: the child finishing (`cmd.Run()`'s result on the `done`
channel — `none` for a nil error, `some e` for a failure) or the
`time.After(timeout)` timer. -/
inductive RaceEvent where
  | processDone (err : Option String)
  | timeoutFired
deriving Repr, DecidableEq

/-- The outcome `runScript` reports after supervision: `success` for a nil
return, `failure` for the execution-failed error, `timedOut` for the
timed-out error carrying the budget it prints. -/
inductive RunOutcome where
  | success
  | failure (err : String)
  | timedOut (elapsedSeconds : Int)
deriving Repr, DecidableEq

/-- Embeds the `select` block of `runScript` (`cmd/root.go`): on process
completion, a nil error means success and a non-nil error means failure;
when the timer fires first, `cmd.Process.Kill()` is called with its return
value discarded (`killErr` is never consulted) and the timed-out outcome
reports the timeout budget. The returned flag records whether a kill was
issued. -/
def superviseRun (firstEvent : RaceEvent) (timeoutSeconds : Int)
    (killErr : Option String) : RunOutcome × Bool :=
  match firstEvent with
  | .processDone none => (.success, false)
  | .processDone (some e) => (.failure e, false)
  | .timeoutFired =>
    let _ := killErr
    (.timedOut timeoutSeconds, true)

/-- What `showScript` produces: the not-found error, or the file's
content printed to the terminal. -/
inductive ShowResult where
  | notFound
  | content (lines : List String)
deriving Repr, DecidableEq

/-- Embeds `showScript` (`cmd/root.go`): `os.Stat` the joined path, fail
with the not-found error when absent, else read and print the file. -/
def showScript (fs : FS) (scriptName : String) : ShowResult :=
  match lookupFile fs scriptName with
  | none => .notFound
  | some file => .content file.lines

/-- The sources `editScript` consults to pick an editor: the `editor`
configuration key (`viper.GetString` yields the empty string for an
absent key), the `EDITOR` and `VISUAL` environment variables (empty when
unset), and the platform. -/
structure EditorEnv where
  configEditor : String
  envEDITOR : String
  envVISUAL : String
  goos : OS
deriving Repr, DecidableEq

/-- Embeds the editor-selection chain of `editScript` (`cmd/root.go`):
`editor` config key, else `EDITOR`, else `VISUAL`, else `notepad` on
Windows and `nano` elsewhere. -/
def resolveEditor (env : EditorEnv) : String :=
  if env.configEditor ≠ "" then env.configEditor
  else if env.envEDITOR ≠ "" then env.envEDITOR
  else if env.envVISUAL ≠ "" then env.envVISUAL
  else if env.goos = .windows then "notepad" else "nano"

/-- What `editScript` does: it either fails before launching anything or
launches one editor process (the source has no failing branch before the
launch; the `notFound` variant exists so theorems can state that it is
never produced). -/
inductive EditPlan where
  | notFound
  | launch (cmd : Command)
deriving Repr, DecidableEq

/-- Embeds `editScript` (`cmd/root.go`): join the scripts directory with
the name — with no `os.Stat` existence check — resolve the editor, and
launch `editor <scriptPath>`. -/
def editScript (env : EditorEnv) (scriptsDir scriptName : String) : EditPlan :=
  let scriptPath := scriptsDir ++ "/" ++ scriptName
  .launch ⟨resolveEditor env, [scriptPath]⟩

/-- Association list from template file name to template text, modelling
the templates directory. -/
abbrev TemplateFS := List (String × String)

/-- Association list from destination path to file content, modelling the
filesystem `applyTemplate` writes into. -/
abbrev DestFS := List (String × String)

/-- Look up an entry of a string-to-string association list. -/
def lookupAssoc (fs : List (String × String)) (name : String) : Option String :=
  match fs with
  | [] => none
  | (n, c) :: rest => if n = name then some c else lookupAssoc rest name

/-- Overwrite (or create) one file of a `DestFS`, modelling `os.Create`
followed by a full write. -/
def writeFile (fs : DestFS) (name content : String) : DestFS :=
  match fs with
  | [] => [(name, content)]
  | (n, c) :: rest =>
    if n = name then (n, content) :: rest else (n, c) :: writeFile rest name content

/-- Embeds the template-resolution step of `applyTemplate`
(`cmd/template.go`): `os.Stat` the exact name, falling back to
`name + ".tmpl"` when the exact name is absent. -/
def resolveTemplate (templates : TemplateFS) (templateName : String) : Option String :=
  match lookupAssoc templates templateName with
  | some content => some content
  | none => lookupAssoc templates (templateName ++ ".tmpl")

/-- How `applyTemplate` returns: `notFound` is its error return;
`cancelled` (user declined the overwrite) and `applied` are both nil
returns. -/
inductive ApplyResult where
  | notFound
  | cancelled
  | applied
deriving Repr, DecidableEq

/-- Whether an `applyTemplate` return is an error (a non-nil Go error). -/
def ApplyResult.isError : ApplyResult → Bool
  | .notFound => true
  | .cancelled => false
  | .applied => false

/-- Embeds `applyTemplate` (`cmd/template.go`): resolve the template
(exact name, then `.tmpl` fallback) and fail not-found before touching the
destination; when the destination exists, prompt and treat any response
whose lower-casing is neither `y` nor `yes` as a decline, returning nil
with the destination untouched; otherwise render the template into the
destination. The text/template engine and the interactively collected
variables are out-of-scope collaborators, abstracted as the `render`
function. -/
def applyTemplate (templates : TemplateFS) (templateName : String)
    (render : String → String) (destFS : DestFS) (outputFile : String)
    (userResponse : String) : ApplyResult × DestFS :=
  match resolveTemplate templates templateName with
  | none => (.notFound, destFS)
  | some templateContent =>
    if (lookupAssoc destFS outputFile).isSome then
      if goToLower userResponse ≠ "y" ∧ goToLower userResponse ≠ "yes" then
        (.cancelled, destFS)
      else
        (.applied, writeFile destFS outputFile (render templateContent))
    else
      (.applied, writeFile destFS outputFile (render templateContent))

/-! ## Theorems -/

/-- C1 (counterexample): with the `--timeout` flag explicitly set to 10
and `scripts.timeout` set to 20 for an existing script, the effective
timeout is 20, not the flag's 10 — the explicit flag does NOT take
priority over the configuration value. -/
theorem c1_flag_does_not_beat_config :
    (runScriptPlan ⟨.posix, "/s", [("a.sh", ⟨["#!/bin/sh"], 0o755⟩)], 20, some 10⟩
      "a.sh" []).timeoutOf = some 20 ∧ (20 : Int) ≠ 10 :=
  ⟨rfl, by decide⟩

/-- C1 (amended): the effective timeout precedence is: a strictly positive
`scripts.timeout` configuration value first, then the `--timeout` flag's
value (explicit or not), then the flag's built-in default of 300 seconds
when the flag was not supplied and the configuration value is absent or
non-positive. -/
theorem timeout_precedence_config_over_flag (env : RunEnv) (name : String)
    (args : List String) (file : MFile)
    (hfound : lookupFile env.fs name = some file) :
    (env.configScriptsTimeout > 0 →
      (runScriptPlan env name args).timeoutOf = some env.configScriptsTimeout) ∧
    (env.configScriptsTimeout ≤ 0 →
      (runScriptPlan env name args).timeoutOf = some (scriptTimeoutValue env.flagTimeout)) ∧
    (env.flagTimeout = none → env.configScriptsTimeout ≤ 0 →
      (runScriptPlan env name args).timeoutOf = some 300) := by
  refine ⟨?_, ?_, ?_⟩
  · intro h
    simp [runScriptPlan, hfound, RunPlan.timeoutOf, effectiveTimeout, if_pos h]
  · intro h
    simp [runScriptPlan, hfound, RunPlan.timeoutOf, effectiveTimeout,
      if_neg (not_lt.mpr h)]
  · intro hflag h
    simp [runScriptPlan, hfound, RunPlan.timeoutOf, effectiveTimeout,
      scriptTimeoutValue, hflag, if_neg (not_lt.mpr h)]

/-- C1 (witness): for a run with `scripts.timeout = 0` and an explicit
`--timeout 42`, the effective timeout is 42. -/
theorem timeout_precedence_config_over_flag_witness :
    (runScriptPlan ⟨.posix, "/s", [("a.sh", ⟨[], 0o755⟩)], 0, some 42⟩
      "a.sh" []).timeoutOf = some 42 :=
  (timeout_precedence_config_over_flag ⟨.posix, "/s", [("a.sh", ⟨[], 0o755⟩)], 0, some 42⟩
    "a.sh" [] ⟨[], 0o755⟩ rfl).2.1 (by decide)

/-- C2 (counterexample): for a non-executable POSIX script whose first
line is `#!/usr/bin/env python3`, the selected interpreter is
`/usr/bin/env` — the first whitespace-delimited shebang token — not
`python3`. -/
theorem c2_interpreter_is_env_not_python3 :
    resolveCommand .posix "hello.py" "/s/hello.py"
        ⟨["#!/usr/bin/env python3", "print(1)"], 0o644⟩ ["a", "b"]
      = ⟨"/usr/bin/env", ["/s/hello.py", "a", "b"]⟩ ∧
    ("/usr/bin/env" : String) ≠ "python3" :=
  ⟨by decide, by decide⟩

/-- C2 (amended): for every POSIX script lacking execute permission whose
first line is `#!/usr/bin/env python3`, the interpreter `/usr/bin/env`
(the first whitespace-delimited token of the shebang) is invoked with the
script path as its first argument followed by the supplied arguments in
their original order. -/
theorem env_shebang_selects_env_token (name path : String) (rest : List String)
    (mode : Nat) (args : List String) (hexec : mode &&& 0o111 = 0) :
    resolveCommand .posix name path ⟨"#!/usr/bin/env python3" :: rest, mode⟩ args
      = ⟨"/usr/bin/env", path :: args⟩ := by
  have hint : getInterpreter ⟨"#!/usr/bin/env python3" :: rest, mode⟩ = "/usr/bin/env" := rfl
  simp [resolveCommand, isExecutable, hexec, hint]

/-- C2 (witness): the amended statement at the concrete script
`hello.py` with mode `0o644` and arguments `["a", "b"]`. -/
theorem env_shebang_selects_env_token_witness :
    resolveCommand .posix "hello.py" "/s/hello.py"
        ⟨["#!/usr/bin/env python3"], 0o644⟩ ["a", "b"]
      = ⟨"/usr/bin/env", ["/s/hello.py", "a", "b"]⟩ :=
  env_shebang_selects_env_token "hello.py" "/s/hello.py" [] 0o644 ["a", "b"] (by decide)

/-- Every field produced by `goFieldsAux` is a nonempty string: fields are
only emitted from a nonempty accumulator. -/
theorem goFieldsAux_mem_ne_empty (cs : List Char) :
    ∀ acc s, s ∈ goFieldsAux cs acc → s ≠ "" := by
  induction cs with
  | nil =>
    intro acc s hs
    unfold goFieldsAux at hs
    by_cases hacc : acc.isEmpty
    · simp [hacc] at hs
    · simp [hacc] at hs
      subst hs
      intro hcon
      have hrev : acc.reverse = [] := by
        simpa using congrArg String.data hcon
      have hnil : acc = [] := by simpa using hrev
      simp [hnil] at hacc
  | cons c rest ih =>
    intro acc s hs
    unfold goFieldsAux at hs
    by_cases hws : c.isWhitespace
    · by_cases hacc : acc.isEmpty
      · simp [hws, hacc] at hs
        exact ih [] s hs
      · simp [hws, hacc] at hs
        rcases hs with hs | hs
        · subst hs
          intro hcon
          have hrev : acc.reverse = [] := by
            simpa using congrArg String.data hcon
          have hnil : acc = [] := by simpa using hrev
          simp [hnil] at hacc
        · exact ih [] s hs
    · simp [hws] at hs
      exact ih (c :: acc) s hs

/-- The first whitespace-delimited token extracted by `goFields` is never
the empty string. -/
theorem goFields_head_ne_empty (s : String) (t : String) (ts : List String)
    (h : goFields s = t :: ts) : t ≠ "" :=
  goFieldsAux_mem_ne_empty s.data [] t (by simp [goFields] at h; simp [h])

/-- C3 (confirmed): POSIX invocation precedence. When the execute bit is
set the script runs directly with the given arguments; otherwise, when the
first line is a `#!` shebang from which a first whitespace-delimited token
`t` is extracted, `t` is invoked with the script path and the arguments;
otherwise (whenever no interpreter is extracted, in particular when there
is no shebang line) the script is invoked via `sh <scriptPath> <args...>`. -/
theorem posix_resolution_precedence (name path : String) (file : MFile)
    (args : List String) :
    (isExecutable .posix path file = true →
      resolveCommand .posix name path file args = ⟨path, args⟩) ∧
    (∀ line rest t ts, isExecutable .posix path file = false →
      file.lines = line :: rest → goHasPrefix line "#!" = true →
      goFields (goTrimSpace (goDrop line 2)) = t :: ts →
      resolveCommand .posix name path file args = ⟨t, path :: args⟩) ∧
    (isExecutable .posix path file = false → getInterpreter file = "" →
      resolveCommand .posix name path file args = ⟨"sh", path :: args⟩) := by
  refine ⟨?_, ?_, ?_⟩
  · intro h
    simp [resolveCommand, h]
  · intro line rest t ts hexec hlines hshebang hfields
    have hint : getInterpreter file = t := by
      simp [getInterpreter, hlines, hshebang, hfields]
    have hne : t ≠ "" := goFields_head_ne_empty _ _ _ hfields
    simp [resolveCommand, hexec, hint, hne]
  · intro hexec hint
    simp [resolveCommand, hexec, hint]

/-- C3 (witness): a non-executable script whose first line is `#!/bin/sh`
is invoked as `sh-interpreter <path>`; here the extracted token is
`/bin/sh`. -/
theorem posix_resolution_precedence_witness :
    resolveCommand .posix "hello.sh" "/s/hello.sh" ⟨["#!/bin/sh", "echo hi"], 0o644⟩ []
      = ⟨"/bin/sh", ["/s/hello.sh"]⟩ :=
  (posix_resolution_precedence "hello.sh" "/s/hello.sh" ⟨["#!/bin/sh", "echo hi"], 0o644⟩
    []).2.1 "#!/bin/sh" ["echo hi"] "/bin/sh" [] (by decide) rfl (by decide) (by decide)

/-- C4 (confirmed): Windows invocation precedence on the lower-cased
script name: `.ps1` goes through `powershell -File <path> <args...>`;
otherwise `.bat` or `.cmd` goes through `cmd /C <path> <args...>`;
otherwise the file is executed directly with the given arguments. -/
theorem windows_resolution_precedence (name path : String) (file : MFile)
    (args : List String) :
    (goHasSuffix (goToLower name) ".ps1" = true →
      resolveCommand .windows name path file args
        = ⟨"powershell", "-File" :: path :: args⟩) ∧
    (goHasSuffix (goToLower name) ".ps1" = false →
      (goHasSuffix (goToLower name) ".bat" = true ∨
       goHasSuffix (goToLower name) ".cmd" = true) →
      resolveCommand .windows name path file args = ⟨"cmd", "/C" :: path :: args⟩) ∧
    (goHasSuffix (goToLower name) ".ps1" = false →
      goHasSuffix (goToLower name) ".bat" = false →
      goHasSuffix (goToLower name) ".cmd" = false →
      resolveCommand .windows name path file args = ⟨path, args⟩) := by
  refine ⟨?_, ?_, ?_⟩
  · intro h
    simp [resolveCommand, h]
  · intro hps1 hrest
    simp [resolveCommand, hps1, hrest]
  · intro hps1 hbat hcmd
    simp [resolveCommand, hps1, hbat, hcmd]

/-- C4 (witness): `Run.PS1` (upper-case extension) resolves to
`powershell -File /s/Run.PS1 x`. -/
theorem windows_resolution_precedence_witness :
    resolveCommand .windows "Run.PS1" "/s/Run.PS1" ⟨[], 0⟩ ["x"]
      = ⟨"powershell", ["-File", "/s/Run.PS1", "x"]⟩ :=
  (windows_resolution_precedence "Run.PS1" "/s/Run.PS1" ⟨[], 0⟩ ["x"]).1 (by decide)

/-- C5 (confirmed): whenever the timeout timer fires before the child
completes, supervision issues a kill (second component `true`), ignores
whether the kill succeeded (`killErr` is arbitrary), and returns the
`timedOut` outcome carrying exactly the timeout budget — an outcome
distinct from every `failure`. -/
theorem timeout_race_returns_timedOut (t : Int) (killErr : Option String) :
    superviseRun .timeoutFired t killErr = (.timedOut t, true) ∧
    (∀ e, (RunOutcome.timedOut t) ≠ .failure e) :=
  ⟨rfl, fun _ h => RunOutcome.noConfusion h⟩

/-- C5 (witness): with a 5-second budget and a failing kill, the outcome
is `timedOut 5` and a kill was attempted. -/
theorem timeout_race_returns_timedOut_witness :
    superviseRun .timeoutFired 5 (some "kill failed") = (.timedOut 5, true) :=
  (timeout_race_returns_timedOut 5 (some "kill failed")).1

/-- C6 (confirmed): for a script name with no file of that exact name in
the scripts directory, `runScript` and `showScript` both fail not-found,
and `runScript` produces no spawn (no child process). -/
theorem missing_script_notFound_no_spawn (env : RunEnv) (name : String)
    (args : List String) (habsent : lookupFile env.fs name = none) :
    runScriptPlan env name args = .notFound ∧
    showScript env.fs name = .notFound ∧
    ∀ c t, runScriptPlan env name args ≠ .spawn c t := by
  refine ⟨?_, ?_, ?_⟩
  · simp [runScriptPlan, habsent]
  · simp [showScript, habsent]
  · intro c t
    simp [runScriptPlan, habsent]

/-- C6 (witness): `ghost.sh` against an empty scripts directory: both
operations report not-found. -/
theorem missing_script_notFound_no_spawn_witness :
    runScriptPlan ⟨.posix, "/s", [], 0, none⟩ "ghost.sh" [] = .notFound ∧
    showScript ([] : FS) "ghost.sh" = .notFound :=
  ⟨(missing_script_notFound_no_spawn ⟨.posix, "/s", [], 0, none⟩ "ghost.sh" [] rfl).1,
   (missing_script_notFound_no_spawn ⟨.posix, "/s", [], 0, none⟩ "ghost.sh" [] rfl).2.1⟩

/-- C7 (confirmed): when neither the exact template name nor the name with
a `.tmpl` suffix exists in the templates directory, `applyTemplate` fails
not-found and returns the destination filesystem unchanged — the
destination file is neither created nor modified. -/
theorem missing_template_notFound_dest_untouched (templates : TemplateFS)
    (templateName : String) (render : String → String) (destFS : DestFS)
    (outputFile userResponse : String)
    (h1 : lookupAssoc templates templateName = none)
    (h2 : lookupAssoc templates (templateName ++ ".tmpl") = none) :
    applyTemplate templates templateName render destFS outputFile userResponse
      = (.notFound, destFS) := by
  simp [applyTemplate, resolveTemplate, h1, h2]

/-- C7 (witness): applying `missing-template` from an empty templates
directory leaves the pre-existing `out.txt` exactly as it was. -/
theorem missing_template_notFound_dest_untouched_witness :
    applyTemplate [] "missing-template" id [("out.txt", "old")] "out.txt" "y"
      = (.notFound, [("out.txt", "old")]) :=
  missing_template_notFound_dest_untouched [] "missing-template" id
    [("out.txt", "old")] "out.txt" "y" rfl rfl

/-- C8 (confirmed): when the template resolves, the destination file
exists, and the user's response lower-cases to neither `y` nor `yes`,
`applyTemplate` cancels: the destination filesystem is returned unchanged,
the destination's content is byte-identical to its pre-call state, and no
error is reported. -/
theorem decline_overwrite_preserves_dest (templates : TemplateFS)
    (templateName : String) (render : String → String) (destFS : DestFS)
    (outputFile userResponse templateContent oldContent : String)
    (hres : resolveTemplate templates templateName = some templateContent)
    (hexists : lookupAssoc destFS outputFile = some oldContent)
    (hy : goToLower userResponse ≠ "y") (hyes : goToLower userResponse ≠ "yes") :
    applyTemplate templates templateName render destFS outputFile userResponse
      = (.cancelled, destFS) ∧
    lookupAssoc (applyTemplate templates templateName render destFS outputFile
      userResponse).2 outputFile = some oldContent ∧
    (applyTemplate templates templateName render destFS outputFile
      userResponse).1.isError = false := by
  have happ : applyTemplate templates templateName render destFS outputFile userResponse
      = (.cancelled, destFS) := by
    simp [applyTemplate, hres, hexists, hy, hyes]
  exact ⟨happ, by rw [happ]; exact hexists, by rw [happ]; rfl⟩

/-- C8 (witness): declining with `N` an overwrite of `out.txt` (content
`old`) leaves `old` in place and reports no error. -/
theorem decline_overwrite_preserves_dest_witness :
    applyTemplate [("t", "X")] "t" id [("out.txt", "old")] "out.txt" "N"
      = (.cancelled, [("out.txt", "old")]) :=
  (decline_overwrite_preserves_dest [("t", "X")] "t" id [("out.txt", "old")]
    "out.txt" "N" "X" "old" rfl rfl (by decide) (by decide)).1

/-- C9 (confirmed): the `scripts.timeout` configuration value is applied
only when strictly positive — whenever it is zero or negative (zero is
what `viper.GetInt` yields for an absent key), the effective timeout of a
run is the `--timeout` flag's value, defaulting to 300 seconds. -/
theorem nonpositive_config_timeout_ignored (env : RunEnv) (name : String)
    (args : List String) (file : MFile)
    (hfound : lookupFile env.fs name = some file)
    (hcfg : env.configScriptsTimeout ≤ 0) :
    (runScriptPlan env name args).timeoutOf = some (env.flagTimeout.getD 300) := by
  simp [runScriptPlan, hfound, RunPlan.timeoutOf, effectiveTimeout, scriptTimeoutValue,
    if_neg (not_lt.mpr hcfg)]

/-- C9 (witness): a run with `scripts.timeout = -7` and no `--timeout`
flag uses the built-in 300-second default. -/
theorem nonpositive_config_timeout_ignored_witness :
    (runScriptPlan ⟨.posix, "/s", [("a.sh", ⟨[], 0o755⟩)], -7, none⟩
      "a.sh" []).timeoutOf = some 300 :=
  nonpositive_config_timeout_ignored ⟨.posix, "/s", [("a.sh", ⟨[], 0o755⟩)], -7, none⟩
    "a.sh" [] ⟨[], 0o755⟩ rfl (by decide)

/-- C10 (confirmed): `editScript` performs no existence check — even for
a name with no corresponding file in the scripts directory it launches the
resolved editor on the joined script path and never reports not-found. -/
theorem edit_no_existence_check (env : EditorEnv) (fs : FS)
    (scriptsDir scriptName : String) (habsent : lookupFile fs scriptName = none) :
    editScript env scriptsDir scriptName
      = .launch ⟨resolveEditor env, [scriptsDir ++ "/" ++ scriptName]⟩ ∧
    editScript env scriptsDir scriptName ≠ .notFound := by
  constructor
  · rfl
  · intro h
    exact EditPlan.noConfusion h

/-- C10 (witness): editing the absent script `ghost.sh` with no editor
configured anywhere on a POSIX host launches `nano` on the joined path. -/
theorem edit_no_existence_check_witness :
    editScript ⟨"", "", "", .posix⟩ "/s" "ghost.sh" = .launch ⟨"nano", ["/s/ghost.sh"]⟩ :=
  (edit_no_existence_check ⟨"", "", "", .posix⟩ [] "/s" "ghost.sh" rfl).1

end Berga
